import Mathlib

/-!
Verification development for the appointment booking service core.

Shallow embedding conventions:
- Time instants are integers, counting minutes since the Unix epoch in UTC
  (the source uses JavaScript `Date` values; minute granularity suffices for
  every quantity the service manipulates: schedule times are "HH:mm" strings
  and durations are whole minutes).
- Lock expiries and clock readings (`Date.now()`) are natural numbers
  (milliseconds in the source; the unit is irrelevant to the properties).
- An IANA timezone is modelled as its fixed offset in minutes east of UTC:
  `fromZonedTime` (date-fns-tz) subtracts the offset, `toZonedTime` /
  `formatInTimeZone` add it.  The runtime (system) timezone of the Node
  process, used implicitly by date-fns `getDay`, is a separate offset
  parameter `sysOffset`.
- A JavaScript `Map<string, number>` is modelled as an association list with
  the usual get/set/delete semantics.
- `async` functions that can throw are modelled with `Except SvcError`;
  collaborator side effects (repository queries and writes, lock operations,
  event emission) are recorded in an explicit effect trace.
-/

namespace ApptSvc

/-! ### The in-memory lock table (ConcurrencyService, concurrency.service.ts)

The source keeps `#locks : Map<lockKey, expiryTimestamp>`.  We model the map
as an association list; `mapSet` overwrites any existing binding. -/

abbrev LockMap := List (String × Nat)

/-- Map.get: the expiry currently recorded for a key, if any. -/
def mapGet (m : LockMap) (k : String) : Option Nat :=
  (m.find? fun p => p.1 == k).map (fun p => p.2)

/-- Map.set: bind a key to a value, overwriting any existing binding. -/
def mapSet (m : LockMap) (k : String) (v : Nat) : LockMap :=
  (k, v) :: m.filter fun p => p.1 != k

/-- Map.delete: remove the binding for a key, if present. -/
def mapDelete (m : LockMap) (k : String) : LockMap :=
  m.filter fun p => p.1 != k

/-- ConcurrencyService.acquireLock.  The source reads
`const existingLockExpiry = this.#locks.get(key)` and refuses when
`existingLockExpiry && existingLockExpiry > now` (JavaScript truthiness: an
expiry of 0 is falsy, hence the `existing != 0` conjunct); otherwise it
records `now + ttlMilliseconds` and returns true. -/
def acquireLock (locks : LockMap) (key : String) (ttlMilliseconds now : Nat) :
    Bool × LockMap :=
  let expiry := now + ttlMilliseconds
  match mapGet locks key with
  | some existing =>
      if existing != 0 && decide (now < existing) then (false, locks)
      else (true, mapSet locks key expiry)
  | none => (true, mapSet locks key expiry)

/-- ConcurrencyService.releaseLock: `this.#locks.delete(key)`, unconditionally
(no check that the caller is the holder that created the record). -/
def releaseLock (locks : LockMap) (key : String) : LockMap :=
  mapDelete locks key

/-- Error taxonomy of core/errors.ts: ConflictError, NotFoundError,
BadRequestError and the base AppError (used with a 500 code for unexpected
repository failures). -/
inductive SvcError
  | conflict (msg : String)
  | notFound (resource : String)
  | badRequest (msg : String)
  | appError (code : String)
deriving DecidableEq, Repr

/-- The ConflictError thrown by executeWithLock when the initial acquire
fails (the LockUnavailable error of the specification). -/
def lockUnavailable (key : String) : SvcError :=
  SvcError.conflict ("Failed to acquire lock for resource: " ++ key ++
    ". It might be locked by another operation.")

/-- Observable collaborator side effects, recorded in traces. -/
inductive Effect
  | lockAcquire (key : String) (ok : Bool)
  | lockRelease (key : String)
  | dbFindById (id : String)
  | dbFindBooked (providerId : String) (lo hi : Int)
  | dbCreate (id : String)
  | dbUpdateTime (id : String)
  | dbUpdateStatus (id : String)
  | emitEvent (name : String) (payload : List String)
  | providerFetch (providerId : String)
deriving DecidableEq, Repr

/-- ConcurrencyService.executeWithLock.  The task is the already-evaluated
outcome of the critical section: its result, the collaborator state it
produces, and its effect trace; `s0` is the state as it stands when the task
is never run.  On a failed acquire the source throws the ConflictError and
runs nothing; on success it runs the task and releases the lock in a
`finally` block, re-throwing any task error unchanged. -/
def executeWithLock {α σ : Type} (locks : LockMap) (key : String)
    (ttlMilliseconds now : Nat)
    (task : Except SvcError α × σ × List Effect) (s0 : σ) :
    Except SvcError α × σ × LockMap × List Effect :=
  match acquireLock locks key ttlMilliseconds now with
  | (false, locks1) =>
      (Except.error (lockUnavailable key), s0, locks1,
        [Effect.lockAcquire key false])
  | (true, locks1) =>
      let (result, state, taskTrace) := task
      (result, state, releaseLock locks1 key,
        Effect.lockAcquire key true :: taskTrace ++ [Effect.lockRelease key])

/-! ### Basic lemmas about the lock map -/

theorem mapGet_mapSet_self (m : LockMap) (k : String) (v : Nat) :
    mapGet (mapSet m k v) k = some v := by
  simp [mapGet, mapSet, List.find?_cons]

theorem find?_filter_self (k : String) :
    ∀ m : LockMap,
      (m.filter fun p => p.1 != k).find? (fun p => p.1 == k) = none
  | [] => rfl
  | p :: m => by
      by_cases hp : p.1 = k
      · have h1 : (p.1 != k) = false := by simp [hp]
        simp only [List.filter_cons, h1, Bool.false_eq_true, if_false]
        exact find?_filter_self k m
      · have h1 : (p.1 != k) = true := by simp [hp]
        have h2 : (p.1 == k) = false := by simp [hp]
        simp only [List.filter_cons, h1, if_true, List.find?_cons, h2]
        exact find?_filter_self k m

theorem find?_filter_ne (k k2 : String) (h : k2 ≠ k) :
    ∀ m : LockMap,
      (m.filter fun p => p.1 != k).find? (fun p => p.1 == k2)
        = m.find? (fun p => p.1 == k2)
  | [] => rfl
  | p :: m => by
      by_cases hp : p.1 = k
      · have h1 : (p.1 != k) = false := by simp [hp]
        have h2 : (p.1 == k2) = false := by
          simp only [hp, beq_eq_false_iff_ne, ne_eq]
          exact fun hc => h hc.symm
        simp only [List.filter_cons, h1, Bool.false_eq_true, if_false,
          List.find?_cons, h2]
        exact find?_filter_ne k k2 h m
      · have h1 : (p.1 != k) = true := by simp [hp]
        simp only [List.filter_cons, h1, if_true]
        by_cases hq : p.1 = k2
        · have h2 : (p.1 == k2) = true := by simp [hq]
          simp only [List.find?_cons, h2]
        · have h2 : (p.1 == k2) = false := by simp [hq]
          simp only [List.find?_cons, h2]
          exact find?_filter_ne k k2 h m

theorem mapGet_mapDelete_self (m : LockMap) (k : String) :
    mapGet (mapDelete m k) k = none := by
  unfold mapGet mapDelete
  rw [find?_filter_self k m]
  rfl

theorem mapGet_mapDelete_ne (m : LockMap) (k k2 : String) (h : k2 ≠ k) :
    mapGet (mapDelete m k) k2 = mapGet m k2 := by
  unfold mapGet mapDelete
  rw [find?_filter_ne k k2 h m]

theorem acquireLock_none (locks : LockMap) (key : String) (ttl now : Nat)
    (h : mapGet locks key = none) :
    acquireLock locks key ttl now = (true, mapSet locks key (now + ttl)) := by
  simp [acquireLock, h]

theorem acquireLock_live (locks : LockMap) (key : String) (ttl now e : Nat)
    (h : mapGet locks key = some e) (he : e ≠ 0) (hn : now < e) :
    acquireLock locks key ttl now = (false, locks) := by
  simp [acquireLock, h, he, hn]

theorem acquireLock_stale (locks : LockMap) (key : String) (ttl now e : Nat)
    (h : mapGet locks key = some e) (he : ¬ (e ≠ 0 ∧ now < e)) :
    acquireLock locks key ttl now = (true, mapSet locks key (now + ttl)) := by
  have hc : ¬ ((e != 0 && decide (now < e)) = true) := by simpa using he
  simp [acquireLock, h, hc]

/-- C1: `acquireLock` returns true and records `now + ttl` for the key iff no
record with expiry strictly in the future exists at call time, and otherwise
returns false leaving the lock table unchanged; consequently, of two acquire
calls on the same key with no release and no expiry passing in between
(`now ≤ now2 < now + ttl`), exactly one returns true. -/
theorem acquireLock_mutual_exclusion
    (locks : LockMap) (key : String) (ttl now ttl2 now2 : Nat)
    (httl : 0 < ttl) :
    ((acquireLock locks key ttl now).1 = true ↔
        ¬ ∃ e, mapGet locks key = some e ∧ now < e) ∧
    ((acquireLock locks key ttl now).1 = true →
        mapGet (acquireLock locks key ttl now).2 key = some (now + ttl)) ∧
    ((acquireLock locks key ttl now).1 = false →
        (acquireLock locks key ttl now).2 = locks) ∧
    ((¬ ∃ e, mapGet locks key = some e ∧ now < e) →
      now ≤ now2 → now2 < now + ttl →
        (acquireLock locks key ttl now).1 = true ∧
        (acquireLock (acquireLock locks key ttl now).2 key ttl2 now2).1
          = false) := by
  refine ⟨?_, ?_, ?_, ?_⟩
  · constructor
    · intro htrue
      rintro ⟨e, hget, hlt⟩
      have he : e ≠ 0 := by omega
      rw [acquireLock_live locks key ttl now e hget he hlt] at htrue
      exact absurd htrue (by simp)
    · intro hfree
      rcases h : mapGet locks key with _ | e
      · rw [acquireLock_none locks key ttl now h]
      · have hne : ¬ (e ≠ 0 ∧ now < e) := by
          intro hc; exact hfree ⟨e, h, hc.2⟩
        rw [acquireLock_stale locks key ttl now e h hne]
  · intro htrue
    rcases h : mapGet locks key with _ | e
    · rw [acquireLock_none locks key ttl now h]
      exact mapGet_mapSet_self locks key (now + ttl)
    · by_cases hl : e ≠ 0 ∧ now < e
      · rw [acquireLock_live locks key ttl now e h hl.1 hl.2] at htrue
        exact absurd htrue (by simp)
      · rw [acquireLock_stale locks key ttl now e h hl]
        exact mapGet_mapSet_self locks key (now + ttl)
  · intro hfalse
    rcases h : mapGet locks key with _ | e
    · rw [acquireLock_none locks key ttl now h] at hfalse
      exact absurd hfalse (by simp)
    · by_cases hl : e ≠ 0 ∧ now < e
      · rw [acquireLock_live locks key ttl now e h hl.1 hl.2]
      · rw [acquireLock_stale locks key ttl now e h hl] at hfalse
        exact absurd hfalse (by simp)
  · intro hfree h1 h2
    have hfirst : acquireLock locks key ttl now =
        (true, mapSet locks key (now + ttl)) := by
      rcases h : mapGet locks key with _ | e
      · exact acquireLock_none locks key ttl now h
      · have hne : ¬ (e ≠ 0 ∧ now < e) := fun hc => hfree ⟨e, h, hc.2⟩
        exact acquireLock_stale locks key ttl now e h hne
    refine ⟨by rw [hfirst], ?_⟩
    rw [hfirst]
    have hget : mapGet (mapSet locks key (now + ttl)) key = some (now + ttl) :=
      mapGet_mapSet_self locks key (now + ttl)
    rw [acquireLock_live (mapSet locks key (now + ttl)) key ttl2 now2
      (now + ttl) hget (by omega) (by omega)]

/-- Witness for C1 at a concrete input: empty lock table, key "k",
ttl 5, first call at time 0, second call at time 3. -/
theorem acquireLock_mutual_exclusion_witness :
    0 < 5 ∧
    (((acquireLock [] "k" 5 0).1 = true ↔
        ¬ ∃ e, mapGet [] "k" = some e ∧ 0 < e) ∧
    ((acquireLock [] "k" 5 0).1 = true →
        mapGet (acquireLock [] "k" 5 0).2 "k" = some (0 + 5)) ∧
    ((acquireLock [] "k" 5 0).1 = false →
        (acquireLock [] "k" 5 0).2 = []) ∧
    ((¬ ∃ e, mapGet [] "k" = some e ∧ 0 < e) → 0 ≤ 3 → 3 < 0 + 5 →
        (acquireLock [] "k" 5 0).1 = true ∧
        (acquireLock (acquireLock [] "k" 5 0).2 "k" 7 3).1 = false)) :=
  ⟨by decide, acquireLock_mutual_exclusion [] "k" 5 0 7 3 (by decide)⟩

/-- C5: `executeWithLock` fails with the LockUnavailable conflict error iff
the initial acquire fails (in which case the task is never run and its state
change never happens); when the acquire succeeds it returns the task result
unchanged — normal or error — with the lock released before the call
returns. -/
theorem executeWithLock_spec {α σ : Type} (locks : LockMap) (key : String)
    (ttl now : Nat) (r : Except SvcError α) (s : σ) (tr : List Effect) (s0 : σ)
    (hr : ∀ e, r = Except.error e → e ≠ lockUnavailable key) :
    ((acquireLock locks key ttl now).1 = false →
        executeWithLock locks key ttl now (r, s, tr) s0 =
          (Except.error (lockUnavailable key), s0,
            (acquireLock locks key ttl now).2,
            [Effect.lockAcquire key false])) ∧
    ((acquireLock locks key ttl now).1 = true →
        executeWithLock locks key ttl now (r, s, tr) s0 =
          (r, s, releaseLock (acquireLock locks key ttl now).2 key,
            Effect.lockAcquire key true :: tr ++ [Effect.lockRelease key])) ∧
    ((executeWithLock locks key ttl now (r, s, tr) s0).1 =
        Except.error (lockUnavailable key) ↔
      (acquireLock locks key ttl now).1 = false) := by
  rcases hacq : acquireLock locks key ttl now with ⟨b, locks1⟩
  cases b
  · refine ⟨fun _ => ?_, fun hc => absurd hc (by simp), ?_⟩
    · simp [executeWithLock, hacq]
    · simp [executeWithLock, hacq]
  · refine ⟨fun hc => absurd hc (by simp), fun _ => ?_, ?_⟩
    · simp [executeWithLock, hacq]
    · simp only [executeWithLock, hacq]
      constructor
      · intro hres
        exact absurd rfl (hr (lockUnavailable key) hres)
      · intro hc
        exact absurd hc (by simp)

/-- Witness for C5 at a concrete input: empty lock table, key "k", a task
returning `Except.ok 0` with state 1, untouched state 0. -/
theorem executeWithLock_spec_witness :
    ((acquireLock [] "k" 5 0).1 = false →
        executeWithLock [] "k" 5 0 (Except.ok 0, 1, []) 0 =
          (Except.error (lockUnavailable "k"), 0,
            (acquireLock [] "k" 5 0).2,
            [Effect.lockAcquire "k" false])) ∧
    ((acquireLock [] "k" 5 0).1 = true →
        executeWithLock [] "k" 5 0 ((Except.ok 0 : Except SvcError Nat), 1, []) 0 =
          (Except.ok 0, 1, releaseLock (acquireLock [] "k" 5 0).2 "k",
            Effect.lockAcquire "k" true :: [] ++ [Effect.lockRelease "k"])) ∧
    ((executeWithLock [] "k" 5 0 ((Except.ok 0 : Except SvcError Nat), 1, []) 0).1 =
        Except.error (lockUnavailable "k") ↔
      (acquireLock [] "k" 5 0).1 = false) :=
  executeWithLock_spec [] "k" 5 0 (Except.ok 0) 1 [] 0
    (fun _ h => nomatch h)

/-- C10: `releaseLock` deletes whatever record exists for the key with no
ownership check; in particular, when a first acquire has expired
(`now + ttl ≤ now2`) and a second operation has re-acquired the key, the
first operation releasing at the end of its critical section removes the
second operation record, which was still live. -/
theorem releaseLock_unconditional
    (locks : LockMap) (key k2 : String) (ttl ttl2 now now2 : Nat)
    (hfree : ¬ ∃ e, mapGet locks key = some e ∧ now < e)
    (hexp : now + ttl ≤ now2) :
    mapGet (releaseLock locks key) key = none ∧
    (k2 ≠ key → mapGet (releaseLock locks key) k2 = mapGet locks k2) ∧
    ((acquireLock locks key ttl now).1 = true ∧
      (acquireLock (acquireLock locks key ttl now).2 key ttl2 now2).1 = true ∧
      mapGet (acquireLock (acquireLock locks key ttl now).2 key ttl2 now2).2 key
        = some (now2 + ttl2) ∧
      mapGet (releaseLock
        (acquireLock (acquireLock locks key ttl now).2 key ttl2 now2).2 key) key
        = none) := by
  have hfirst : acquireLock locks key ttl now =
      (true, mapSet locks key (now + ttl)) := by
    rcases h : mapGet locks key with _ | e
    · exact acquireLock_none locks key ttl now h
    · have hne : ¬ (e ≠ 0 ∧ now < e) := fun hc => hfree ⟨e, h, hc.2⟩
      exact acquireLock_stale locks key ttl now e h hne
  have hget1 : mapGet (mapSet locks key (now + ttl)) key = some (now + ttl) :=
    mapGet_mapSet_self locks key (now + ttl)
  have hsecond : acquireLock (mapSet locks key (now + ttl)) key ttl2 now2 =
      (true, mapSet (mapSet locks key (now + ttl)) key (now2 + ttl2)) :=
    acquireLock_stale _ key ttl2 now2 (now + ttl) hget1 (by omega)
  refine ⟨mapGet_mapDelete_self locks key,
    fun h => mapGet_mapDelete_ne locks key k2 h, ?_⟩
  rw [hfirst]
  refine ⟨rfl, ?_, ?_, ?_⟩
  · rw [hsecond]
  · rw [hsecond]
    exact mapGet_mapSet_self _ key (now2 + ttl2)
  · rw [hsecond]
    exact mapGet_mapDelete_self _ key

/-- Witness for C10 at a concrete input: empty table, first acquire at time 0
with ttl 5, second acquire at time 5 (the first record already expired) with
ttl 9. -/
theorem releaseLock_unconditional_witness :
    (¬ ∃ e, mapGet [] "k" = some e ∧ 0 < e) ∧ 0 + 5 ≤ 5 ∧
    (mapGet (releaseLock [] "k") "k" = none ∧
    ("j" ≠ "k" → mapGet (releaseLock [] "k") "j" = mapGet [] "j") ∧
    ((acquireLock [] "k" 5 0).1 = true ∧
      (acquireLock (acquireLock [] "k" 5 0).2 "k" 9 5).1 = true ∧
      mapGet (acquireLock (acquireLock [] "k" 5 0).2 "k" 9 5).2 "k"
        = some (5 + 9) ∧
      mapGet (releaseLock
        (acquireLock (acquireLock [] "k" 5 0).2 "k" 9 5).2 "k") "k"
        = none)) :=
  ⟨by simp [mapGet], by decide,
    releaseLock_unconditional [] "k" "j" 5 9 0 5 (by simp [mapGet]) (by decide)⟩

/-! ### Date and time utilities (lib/dateTimeUtils.ts)

A calendar date ("YYYY-MM-DD") is its day number since 1970-01-01, a
"HH:mm" local time is its minute-of-day, and an IANA timezone is its fixed
offset in minutes east of UTC (date-fns-tz `fromZonedTime` subtracts the
offset to produce the UTC instant, `formatInTimeZone` adds it back). -/

/-- getUTCDateTime: convert a date string plus a "HH:mm" time in a specific
timezone into a UTC instant (`fromZonedTime` of the combined local
date-time). -/
def getUTCDateTime (dateDays timeMinutes : Int) (timezone : Int) : Int :=
  dateDays * 1440 + timeMinutes - timezone

/-- getStartOfDayUTC: `fromZonedTime` of local midnight on the given date. -/
def getStartOfDayUTC (dateDays : Int) (timezone : Int) : Int :=
  dateDays * 1440 - timezone

/-- formatUTCTime / formatInTimeZone with "HH:mm": the minute-of-day of the
instant in the given timezone. -/
def formatUTCTime (utcDate : Int) (timezone : Int) : Int :=
  Int.emod (utcDate + timezone) 1440

/-- formatUTCDateOnly / formatInTimeZone with "yyyy-MM-dd": the calendar day
number of the instant in the given timezone. -/
def formatUTCDateOnly (utcDate : Int) (timezone : Int) : Int :=
  Int.fdiv (utcDate + timezone) 1440

/-- date-fns `getDay` as used by getDayOfWeekString: the day-of-week index
(0 = SUNDAY .. 6 = SATURDAY) of the instant interpreted in the RUNTIME
timezone of the Node process (`sysOffset`), not in any explicitly passed
timezone.  1970-01-01 was a Thursday, index 4. -/
def getDayOfWeekIndex (sysOffset : Int) (date : Int) : Int :=
  Int.emod (Int.fdiv (date + sysOffset) 1440 + 4) 7

/-- Day-of-week prescribed by the specification for a provider-local
calendar date: the day-of-week of the local calendar date itself
(0 = SUNDAY .. 6 = SATURDAY).  Stated from the spec for comparison with
`getDayOfWeekIndex`. -/
def localDayOfWeek (dateDays : Int) : Int :=
  Int.emod (dateDays + 4) 7

/-- One unfolding of the while-loop of generateTimeSlots, with an explicit
iteration bound for structural recursion: yield `cur` and step by `dur`
while `cur ≤ last`.  The source loop does not terminate for a non-positive
duration, hence the `0 < dur` guard restricting the model to the positive
durations the service uses; for such durations the loop makes at most
`last + 1 - cur` iterations, so a fuel of that size never runs out. -/
def generateSlotsLoop (dur : Nat) (last : Int) : Nat → Int → List Int
  | 0, _ => []
  | fuel + 1, cur =>
      if 0 < dur ∧ cur ≤ last then
        cur :: generateSlotsLoop dur last fuel (cur + dur)
      else []

/-- The while-loop of generateTimeSlots, started with sufficient fuel. -/
def generateSlotsFrom (cur last : Int) (dur : Nat) : List Int :=
  generateSlotsLoop dur last ((last + 1 - cur).toNat) cur

/-- generateTimeSlots: convert the working-window bounds to UTC; the last
valid slot start is `dayEndUTC - duration`; emit starts stepping by the
duration while not after the last valid start. -/
def generateTimeSlots (dayStartTime dayEndTime dateDays : Int)
    (durationMinutes : Nat) (timezone : Int) : List Int :=
  let dayStartUTC := getUTCDateTime dateDays dayStartTime timezone
  let dayEndUTC := getUTCDateTime dateDays dayEndTime timezone
  let lastPossibleSlotStartUTC := dayEndUTC - durationMinutes
  generateSlotsFrom dayStartUTC lastPossibleSlotStartUTC durationMinutes

/-- A booked interval as returned by the appointment repository. -/
structure BookedSlot where
  startTime : Int
  endTime : Int
deriving DecidableEq, Repr

/-- The three boundary checks the source performs for one booked
appointment: starts-during, ends-during, contains. -/
def overlapChecks (slotTimeUTC slotEndTimeUTC : Int)
    (appt : BookedSlot) : Bool :=
  let startsDuringAppt :=
    slotTimeUTC == appt.startTime ||
      (decide (appt.startTime < slotTimeUTC) &&
        decide (slotTimeUTC < appt.endTime))
  let endsDuringAppt :=
    decide (appt.startTime < slotEndTimeUTC) &&
      (slotEndTimeUTC == appt.endTime ||
        decide (slotEndTimeUTC < appt.endTime))
  let containsAppt :=
    (decide (slotTimeUTC < appt.startTime) || slotTimeUTC == appt.startTime) &&
      (decide (appt.endTime < slotEndTimeUTC) || slotEndTimeUTC == appt.endTime)
  startsDuringAppt || endsDuringAppt || containsAppt

/-- isSlotBooked: true when any booked appointment passes one of the three
boundary checks against `[slot, slot + duration)`. -/
def isSlotBooked (slotTimeUTC : Int) (bookedAppointments : List BookedSlot)
    (durationMinutes : Nat) : Bool :=
  let slotEndTimeUTC := slotTimeUTC + durationMinutes
  bookedAppointments.any fun appt => overlapChecks slotTimeUTC slotEndTimeUTC appt

/-- Overlap rule as worded by the specification: two intervals overlap
unless one entirely precedes the other (`aEnd ≤ bStart` or `bEnd ≤ aStart`).
Stated from the spec for the refinement comparison. -/
def overlapsSpec (aStart aEnd bStart bEnd : Int) : Bool :=
  !(decide (aEnd ≤ bStart) || decide (bEnd ≤ aStart))

theorem overlapChecks_eq (s e : Int) (b : BookedSlot)
    (hs : s < e) (hb : b.startTime < b.endTime) :
    overlapChecks s e b = overlapsSpec s e b.startTime b.endTime := by
  obtain ⟨bs, be⟩ := b
  simp only at hb
  apply Bool.eq_iff_iff.mpr
  simp only [overlapChecks, overlapsSpec, Bool.or_eq_true, Bool.and_eq_true,
    Bool.not_eq_true', Bool.or_eq_false_iff, beq_iff_eq, decide_eq_true_eq,
    decide_eq_false_iff_not]
  omega

/-- C2: for a slot of positive duration and booked intervals with
start < end, the three boundary checks of isSlotBooked (starts-during,
ends-during, contains) are together equivalent to the single
inclusive-start/exclusive-end overlap test of the specification:
isSlotBooked returns true iff some booked interval overlaps
`[slot, slot + duration)` under the inclusive-open rule. -/
theorem isSlotBooked_eq_overlap (slot : Int) (dur : Nat)
    (booked : List BookedSlot) (hdur : 0 < dur)
    (hiv : ∀ b ∈ booked, b.startTime < b.endTime) :
    isSlotBooked slot booked dur =
      booked.any fun b => overlapsSpec slot (slot + dur) b.startTime b.endTime := by
  have hs : slot < slot + dur := by omega
  induction booked with
  | nil => rfl
  | cons b l ih =>
      have hb := hiv b (by simp)
      have hl : ∀ x ∈ l, x.startTime < x.endTime :=
        fun x hx => hiv x (by simp [hx])
      simp only [isSlotBooked, List.any_cons] at ih ⊢
      rw [overlapChecks_eq slot (slot + dur) b hs hb, ih hl]

/-- Witness for C2 at a concrete input: slot `[0, 30)` against booked
intervals `[15, 45)` and `[45, 60)`. -/
theorem isSlotBooked_eq_overlap_witness :
    0 < 30 ∧
    isSlotBooked 0 [BookedSlot.mk 15 45, BookedSlot.mk 45 60] 30 =
      List.any [BookedSlot.mk 15 45, BookedSlot.mk 45 60]
        (fun b => overlapsSpec 0 (0 + 30) b.startTime b.endTime) :=
  ⟨by decide,
    isSlotBooked_eq_overlap 0 30 [BookedSlot.mk 15 45, BookedSlot.mk 45 60]
      (by decide) (by decide)⟩

theorem mem_generateSlotsLoop (dur : Nat) (hdur : 0 < dur) (last : Int) :
    ∀ (fuel : Nat) (cur : Int), (last + 1 - cur).toNat ≤ fuel →
      ∀ t : Int, (t ∈ generateSlotsLoop dur last fuel cur ↔
        ∃ k : Nat, t = cur + (k : Int) * dur ∧ t ≤ last)
  | 0, cur, hn, t => by
      have hgt : ¬ cur ≤ last := by omega
      rw [generateSlotsLoop]
      constructor
      · intro h; cases h
      · rintro ⟨k, rfl, hk⟩
        have : (0 : Int) ≤ (k : Int) * dur := by positivity
        omega
  | fuel + 1, cur, hn, t => by
      by_cases hle : cur ≤ last
      · rw [generateSlotsLoop, if_pos ⟨hdur, hle⟩, List.mem_cons,
          mem_generateSlotsLoop dur hdur last fuel (cur + dur) (by omega) t]
        constructor
        · rintro (rfl | ⟨k, rfl, hk⟩)
          · exact ⟨0, by simp, hle⟩
          · exact ⟨k + 1, by push_cast; ring, hk⟩
        · rintro ⟨k, rfl, hk⟩
          cases k with
          | zero => left; simp
          | succ k =>
              right
              exact ⟨k, by push_cast; ring, hk⟩
      · rw [generateSlotsLoop, if_neg (fun hc => hle hc.2)]
        constructor
        · intro h; cases h
        · rintro ⟨k, rfl, hk⟩
          have : (0 : Int) ≤ (k : Int) * dur := by positivity
          omega

theorem mem_generateSlotsFrom (dur : Nat) (hdur : 0 < dur) (cur last t : Int) :
    t ∈ generateSlotsFrom cur last dur ↔
      ∃ k : Nat, t = cur + (k : Int) * dur ∧ t ≤ last :=
  mem_generateSlotsLoop dur hdur last (last + 1 - cur).toNat cur le_rfl t

theorem generateSlotsLoop_chain (dur : Nat) (hdur : 0 < dur) (last : Int) :
    ∀ (fuel : Nat) (cur : Int), (last + 1 - cur).toNat ≤ fuel →
      (generateSlotsLoop dur last fuel cur).Chain' (· < ·)
  | 0, _, _ => by
      rw [generateSlotsLoop]
      exact List.chain'_nil
  | fuel + 1, cur, hn => by
      by_cases hle : cur ≤ last
      · rw [generateSlotsLoop, if_pos ⟨hdur, hle⟩]
        rw [List.chain'_cons']
        refine ⟨?_, generateSlotsLoop_chain dur hdur last fuel (cur + dur)
          (by omega)⟩
        intro b hb
        have hmem : b ∈ generateSlotsLoop dur last fuel (cur + dur) :=
          List.mem_of_mem_head? hb
        rcases (mem_generateSlotsLoop dur hdur last fuel (cur + dur)
          (by omega) b).mp hmem with ⟨k, rfl, hk⟩
        have : (0 : Int) ≤ (k : Int) * dur := by positivity
        omega
      · rw [generateSlotsLoop, if_neg (fun hc => hle hc.2)]
        exact List.chain'_nil

/-- C4: generateTimeSlots emits exactly the finite strictly ascending
sequence UTCStart, UTCStart + d, UTCStart + 2d, ... of all the instants not
after UTCEnd - d, where UTCStart and UTCEnd are the UTC conversions of the
local window bounds on the target date; in particular the sequence is empty
whenever the local window is shorter than the duration. -/
theorem generateTimeSlots_spec (dayStartTime dayEndTime dateDays : Int)
    (dur : Nat) (tz : Int) (t : Int) (hdur : 0 < dur) :
    (t ∈ generateTimeSlots dayStartTime dayEndTime dateDays dur tz ↔
      (getUTCDateTime dateDays dayStartTime tz ≤ t ∧
        t ≤ getUTCDateTime dateDays dayEndTime tz - dur ∧
        (dur : Int) ∣ (t - getUTCDateTime dateDays dayStartTime tz))) ∧
    (generateTimeSlots dayStartTime dayEndTime dateDays dur tz).Chain'
      (· < ·) ∧
    (dayEndTime - dayStartTime < dur →
      generateTimeSlots dayStartTime dayEndTime dateDays dur tz = []) := by
  refine ⟨?_, ?_, ?_⟩
  · rw [generateTimeSlots, mem_generateSlotsFrom dur hdur]
    constructor
    · rintro ⟨k, rfl, hk⟩
      have hpos : (0 : Int) ≤ (k : Int) * dur := by positivity
      refine ⟨by omega, hk, ⟨(k : Int), by ring⟩⟩
    · rintro ⟨h1, h2, c, hc⟩
      have hdpos : (0 : Int) < dur := by exact_mod_cast hdur
      have hc0 : 0 ≤ c := by nlinarith
      refine ⟨c.toNat, ?_, h2⟩
      rw [Int.toNat_of_nonneg hc0]
      linarith [hc]
  · exact generateSlotsLoop_chain dur hdur _ _ _ le_rfl
  · intro hshort
    have hz : (getUTCDateTime dateDays dayEndTime tz - (dur : Int) + 1 -
        getUTCDateTime dateDays dayStartTime tz).toNat = 0 := by
      simp only [getUTCDateTime]
      omega
    simp only [generateTimeSlots, generateSlotsFrom]
    rw [hz, generateSlotsLoop]

/-- Witness for C4 at a concrete input: window 09:00 (540) to 17:00 (1020)
on epoch day 0, duration 30 minutes, UTC provider, instant 540. -/
theorem generateTimeSlots_spec_witness :
    0 < 30 ∧
    ((540 ∈ generateTimeSlots 540 1020 0 30 0 ↔
      (getUTCDateTime 0 540 0 ≤ 540 ∧
        540 ≤ getUTCDateTime 0 1020 0 - ((30 : Nat) : Int) ∧
        ((30 : Nat) : Int) ∣ (540 - getUTCDateTime 0 540 0))) ∧
    (generateTimeSlots 540 1020 0 30 0).Chain' (· < ·) ∧
    ((1020 : Int) - 540 < ((30 : Nat) : Int) →
      generateTimeSlots 540 1020 0 30 0 = [])) :=
  ⟨by decide, generateTimeSlots_spec 540 1020 0 30 0 540 (by decide)⟩

/-- C3 is refuted by the source: getDayOfWeekString applies date-fns getDay
to the UTC instant of provider-local midnight, so the day-of-week is taken
in the RUNTIME timezone, not the provider timezone.  With a UTC runtime
(offset 0) and a provider at UTC+9 (Asia/Tokyo, offset 540), epoch day 20255
(2025-06-16, a Monday in the provider calendar) is classified as SUNDAY
(index 0) while the provider-local day-of-week is MONDAY (index 1); the
code agrees with the provider-local day only when the runtime offset is the
provider offset. -/
theorem getDayOfWeek_runtime_mismatch :
    getDayOfWeekIndex 0 (getStartOfDayUTC 20255 540) = 0 ∧
    localDayOfWeek 20255 = 1 ∧
    getDayOfWeekIndex 540 (getStartOfDayUTC 20255 540) = 1 := by decide

/-! ### Data model (prisma/schema.prisma) -/

/-- AppointmentStatus enum of the Prisma schema (CONFIRMED, CANCELLED). -/
inductive AppointmentStatus
  | confirmed
  | cancelled
deriving DecidableEq, Repr

/-- Appointment row. -/
structure Appointment where
  id : String
  patientId : String
  providerId : String
  startTime : Int
  endTime : Int
  status : AppointmentStatus
deriving DecidableEq, Repr

/-- The appointment table. -/
abbrev Db := List Appointment

/-- ProviderSchedule row: day-of-week index (0 = SUNDAY .. 6 = SATURDAY)
with local "HH:mm" bounds as minute-of-day values. -/
structure ScheduleEntry where
  dayOfWeek : Int
  startTime : Int
  endTime : Int
deriving DecidableEq, Repr

/-- Provider row with its schedules; the timezone is the fixed offset in
minutes east of UTC. -/
structure Provider where
  id : String
  timezone : Int
  appointmentDuration : Nat
  schedules : List ScheduleEntry
deriving DecidableEq, Repr

/-! ### Appointment repository (repositories/appointment.repository.ts) -/

/-- AppointmentRepository.findById (prisma findUnique by id). -/
def findById (db : Db) (appointmentId : String) : Option Appointment :=
  db.find? fun a => a.id == appointmentId

/-- Insertion step for ordering booked slots by ascending startTime. -/
def insertByStart (b : BookedSlot) : List BookedSlot → List BookedSlot
  | [] => [b]
  | c :: cs =>
      if decide (b.startTime ≤ c.startTime) then b :: c :: cs
      else c :: insertByStart b cs

/-- AppointmentRepository.findBookedSlots: CONFIRMED appointments of the
provider whose interval overlaps the query range (the three OR clauses of
the Prisma where-filter), projected to start/end and ordered by startTime
ascending. -/
def findBookedSlots (db : Db) (providerId : String)
    (rangeStartUTC rangeEndUTC : Int) : List BookedSlot :=
  ((db.filter fun a =>
      a.providerId == providerId &&
      a.status == AppointmentStatus.confirmed &&
      ((decide (rangeStartUTC ≤ a.startTime) &&
          decide (a.startTime < rangeEndUTC)) ||
        (decide (rangeStartUTC < a.endTime) &&
          decide (a.endTime ≤ rangeEndUTC)) ||
        (decide (a.startTime ≤ rangeStartUTC) &&
          decide (rangeEndUTC ≤ a.endTime)))
    ).map fun a => BookedSlot.mk a.startTime a.endTime
  ).foldr insertByStart []

/-- AppointmentRepository.create: raises the ConflictError on a violation
of the unique constraint on (providerId, startTime), otherwise inserts a
new CONFIRMED appointment. -/
def createAppointment (db : Db) (newId patientId providerId : String)
    (startTime endTime : Int) : Except SvcError (Appointment × Db) :=
  if db.any fun a => a.providerId == providerId && a.startTime == startTime then
    Except.error
      (SvcError.conflict "Time slot is already booked (concurrent request).")
  else
    let appt : Appointment :=
      ⟨newId, patientId, providerId, startTime, endTime,
        AppointmentStatus.confirmed⟩
    Except.ok (appt, db ++ [appt])

/-- AppointmentRepository.updateTime: a missing record raises the
NotFoundError, a uniqueness violation on the new slot the ConflictError;
otherwise the record is updated in place. -/
def updateAppointmentTime (db : Db) (appointmentId : String)
    (newStartTime newEndTime : Int) : Except SvcError (Appointment × Db) :=
  match findById db appointmentId with
  | none => Except.error (SvcError.notFound "Appointment")
  | some a =>
      if db.any fun b => b.providerId == a.providerId &&
          b.startTime == newStartTime && b.id != appointmentId then
        Except.error (SvcError.conflict "The new time slot is already booked.")
      else
        let a2 := { a with startTime := newStartTime, endTime := newEndTime }
        Except.ok (a2, db.map fun b => if b.id == appointmentId then a2 else b)

/-- AppointmentRepository.updateStatus. -/
def updateAppointmentStatus (db : Db) (appointmentId : String)
    (status : AppointmentStatus) : Except SvcError (Appointment × Db) :=
  match findById db appointmentId with
  | none => Except.error (SvcError.notFound "Appointment")
  | some a =>
      let a2 := { a with status := status }
      Except.ok (a2, db.map fun b => if b.id == appointmentId then a2 else b)

/-! ### Provider service (ProviderService.getAvailableSlotsForDate) -/

/-- ProviderService.getAvailableSlotsForDate, with the provider record
already fetched (the providerData argument of the source).  Looks up the
schedule entry for the day-of-week computed by getDayOfWeekString, returns
empty immediately when there is none; otherwise queries the booked slots of
the provider-local day (startOfDay .. endOfDay, 23:59 at minute
granularity), generates the candidate slots and keeps those not booked,
formatted as local minute-of-day.  The second component is the list of
persistence effects performed. -/
def getAvailableSlotsForDate (sysOffset : Int) (db : Db) (provider : Provider)
    (dateDays : Int) : List Int × List Effect :=
  let targetDateUTC := getStartOfDayUTC dateDays provider.timezone
  let dayOfWeek := getDayOfWeekIndex sysOffset targetDateUTC
  match provider.schedules.find? fun s => s.dayOfWeek == dayOfWeek with
  | none => ([], [])
  | some dailySchedule =>
      let localDay := Int.fdiv (targetDateUTC + provider.timezone) 1440
      let dayStartUTC := localDay * 1440 - provider.timezone
      let dayEndUTC := localDay * 1440 + 1439 - provider.timezone
      let bookedSlots := findBookedSlots db provider.id dayStartUTC dayEndUTC
      let potentialSlotsUTC := generateTimeSlots dailySchedule.startTime
        dailySchedule.endTime dateDays provider.appointmentDuration
        provider.timezone
      let availableSlots := (potentialSlotsUTC.filter fun s =>
          !(isSlotBooked s bookedSlots provider.appointmentDuration)).map
        fun s => formatUTCTime s provider.timezone
      (availableSlots, [Effect.dbFindBooked provider.id dayStartUTC dayEndUTC])

/-! ### Appointment service (services/appointment.service.ts) -/

/-- Lock TTL constant of the source (10 seconds). -/
def APPOINTMENT_LOCK_TTL_MS : Nat := 10000

/-- The critical section of bookAppointment (the task passed to
executeWithLock): fetch the provider, re-check availability inside the
lock, create the appointment and emit the confirmation event. -/
def bookCriticalSection (sysOffset : Int) (db : Db)
    (providerLookup : Option Provider) (newId : String)
    (emit : Except SvcError Unit) (patientId providerId : String)
    (requestedTimeUTC : Int) :
    Except SvcError Appointment × Db × List Effect :=
  match providerLookup with
  | none => (Except.error (SvcError.notFound "Provider"), db,
      [Effect.providerFetch providerId])
  | some provider =>
      let dateDays := formatUTCDateOnly requestedTimeUTC provider.timezone
      let availRes := getAvailableSlotsForDate sysOffset db provider dateDays
      let requestedTimeFormatted :=
        formatUTCTime requestedTimeUTC provider.timezone
      if !(availRes.1.contains requestedTimeFormatted) then
        (Except.error (SvcError.conflict "Time slot is not available."), db,
          Effect.providerFetch providerId :: availRes.2)
      else
        let endTimeUTC := requestedTimeUTC + provider.appointmentDuration
        match createAppointment db newId patientId providerId
            requestedTimeUTC endTimeUTC with
        | Except.error e =>
            -- the repository ConflictError is re-thrown unchanged; the
            -- model's create fails in no other way
            (Except.error e, db,
              Effect.providerFetch providerId :: availRes.2 ++
                [Effect.dbCreate newId])
        | Except.ok (newAppointment, db2) =>
            let trace := Effect.providerFetch providerId :: availRes.2 ++
              [Effect.dbCreate newId,
                Effect.emitEvent "APPOINTMENT_CONFIRMED"
                  [newAppointment.id, newAppointment.patientId,
                    newAppointment.providerId]]
            match emit with
            | Except.ok _ => (Except.ok newAppointment, db2, trace)
            | Except.error e => (Except.error e, db2, trace)

/-- AppointmentService.bookAppointment.  `providerLookup` is the outcome of
the getProviderSchedule collaborator call (none models its NotFoundError),
`newId` the id persistence assigns to the created row, `emit` the outcome of
the eventService.emitEvent call, `now` the clock reading at lock
acquisition.  Returns the result, the appointment table, the lock table and
the effect trace. -/
def bookAppointment (sysOffset : Int) (db : Db) (locks : LockMap) (now : Nat)
    (providerLookup : Option Provider) (newId : String)
    (emit : Except SvcError Unit) (patientId providerId : String)
    (requestedTimeUTC : Int) :
    Except SvcError Appointment × Db × LockMap × List Effect :=
  let lockKey :=
    "lock:appointment:" ++ providerId ++ ":" ++ toString requestedTimeUTC
  executeWithLock locks lockKey APPOINTMENT_LOCK_TTL_MS now
    (bookCriticalSection sysOffset db providerLookup newId emit patientId
      providerId requestedTimeUTC) db

/-- The critical section of rescheduleAppointment: fetch the provider,
re-check availability of the new slot inside the lock, update the record
time and emit the rescheduled event (with both old and new instants). -/
def rescheduleCriticalSection (sysOffset : Int) (db : Db)
    (providerLookup : Option Provider) (emit : Except SvcError Unit)
    (appointmentId : String) (existingAppointment : Appointment)
    (newStartTimeUTC : Int) :
    Except SvcError Appointment × Db × List Effect :=
  let providerId := existingAppointment.providerId
  match providerLookup with
  | none => (Except.error (SvcError.notFound "Provider"), db,
      [Effect.providerFetch providerId])
  | some provider =>
      let newDateDays := formatUTCDateOnly newStartTimeUTC provider.timezone
      let availRes :=
        getAvailableSlotsForDate sysOffset db provider newDateDays
      let newTimeFormatted := formatUTCTime newStartTimeUTC provider.timezone
      if !(availRes.1.contains newTimeFormatted) then
        (Except.error
            (SvcError.conflict "New time slot is no longer available."),
          db, Effect.providerFetch providerId :: availRes.2)
      else
        let newEndTimeUTC := newStartTimeUTC + provider.appointmentDuration
        match updateAppointmentTime db appointmentId newStartTimeUTC
            newEndTimeUTC with
        | Except.error e =>
            -- repository ConflictError / NotFoundError re-thrown
            (Except.error e, db,
              Effect.providerFetch providerId :: availRes.2 ++
                [Effect.dbUpdateTime appointmentId])
        | Except.ok (updatedAppointment, db2) =>
            let trace :=
              Effect.providerFetch providerId :: availRes.2 ++
                [Effect.dbUpdateTime appointmentId,
                  Effect.emitEvent "APPOINTMENT_RESCHEDULED"
                    [updatedAppointment.id,
                      toString updatedAppointment.startTime,
                      toString existingAppointment.startTime]]
            match emit with
            | Except.ok _ => (Except.ok updatedAppointment, db2, trace)
            | Except.error e => (Except.error e, db2, trace)

/-- AppointmentService.rescheduleAppointment: load (NotFoundError when
absent), refuse a cancelled appointment (BadRequestError), return unchanged
when the new time equals the current start; otherwise lock the target slot
and run the critical section under it. -/
def rescheduleAppointment (sysOffset : Int) (db : Db) (locks : LockMap)
    (now : Nat) (providerLookup : Option Provider)
    (emit : Except SvcError Unit) (appointmentId : String)
    (newStartTimeUTC : Int) :
    Except SvcError Appointment × Db × LockMap × List Effect :=
  match findById db appointmentId with
  | none => (Except.error (SvcError.notFound "Appointment"), db, locks,
      [Effect.dbFindById appointmentId])
  | some existingAppointment =>
      if existingAppointment.status == AppointmentStatus.cancelled then
        (Except.error
            (SvcError.badRequest "Cannot reschedule a cancelled appointment."),
          db, locks, [Effect.dbFindById appointmentId])
      else if newStartTimeUTC == existingAppointment.startTime then
        (Except.ok existingAppointment, db, locks,
          [Effect.dbFindById appointmentId])
      else
        let providerId := existingAppointment.providerId
        let lockKey :=
          "lock:appointment:" ++ providerId ++ ":" ++ toString newStartTimeUTC
        let res := executeWithLock locks lockKey APPOINTMENT_LOCK_TTL_MS now
          (rescheduleCriticalSection sysOffset db providerLookup emit
            appointmentId existingAppointment newStartTimeUTC) db
        (res.1, res.2.1, res.2.2.1,
          Effect.dbFindById appointmentId :: res.2.2.2)

/-- AppointmentService.cancelAppointment: load (NotFoundError when absent);
already CANCELLED returns the record unchanged; otherwise the status is
updated and the cancelled event emitted.  No lock is involved. -/
def cancelAppointment (db : Db) (emit : Except SvcError Unit)
    (appointmentId reason : String) :
    Except SvcError Appointment × Db × List Effect :=
  match findById db appointmentId with
  | none => (Except.error (SvcError.notFound "Appointment"), db,
      [Effect.dbFindById appointmentId])
  | some existingAppointment =>
      if existingAppointment.status == AppointmentStatus.cancelled then
        (Except.ok existingAppointment, db, [Effect.dbFindById appointmentId])
      else
        match updateAppointmentStatus db appointmentId
            AppointmentStatus.cancelled with
        | Except.error e =>
            -- repository NotFoundError re-thrown; the model's updateStatus
            -- fails in no other way
            (Except.error e, db,
              [Effect.dbFindById appointmentId,
                Effect.dbUpdateStatus appointmentId])
        | Except.ok (cancelledAppointment, db2) =>
            let trace := [Effect.dbFindById appointmentId,
              Effect.dbUpdateStatus appointmentId,
              Effect.emitEvent "APPOINTMENT_CANCELLED"
                [cancelledAppointment.id, reason]]
            match emit with
            | Except.ok _ => (Except.ok cancelledAppointment, db2, trace)
            | Except.error e => (Except.error e, db2, trace)

/-- Does a trace contain a booked-slots repository query? -/
def hasBookedQuery (trace : List Effect) : Bool :=
  trace.any fun e =>
    match e with
    | Effect.dbFindBooked _ _ _ => true
    | _ => false

/-- C9: when no WeeklyScheduleEntry matches the day-of-week,
getAvailableSlotsForDate returns the empty list and performs no
persistence query; the booked-intervals query is made exactly when a
matching schedule entry exists. -/
theorem getAvailableSlotsForDate_frame (sysOffset : Int) (db : Db)
    (provider : Provider) (dateDays : Int) :
    ((provider.schedules.find? fun s => s.dayOfWeek ==
        getDayOfWeekIndex sysOffset
          (getStartOfDayUTC dateDays provider.timezone)) = none →
      getAvailableSlotsForDate sysOffset db provider dateDays = ([], [])) ∧
    (hasBookedQuery
        (getAvailableSlotsForDate sysOffset db provider dateDays).2 = true ↔
      (provider.schedules.find? fun s => s.dayOfWeek ==
        getDayOfWeekIndex sysOffset
          (getStartOfDayUTC dateDays provider.timezone)) ≠ none) := by
  rcases hf : provider.schedules.find? fun s => s.dayOfWeek ==
      getDayOfWeekIndex sysOffset
        (getStartOfDayUTC dateDays provider.timezone) with _ | sched
  · refine ⟨fun _ => ?_, ?_⟩
    · simp [getAvailableSlotsForDate, hf]
    · simp [getAvailableSlotsForDate, hf, hasBookedQuery]
  · refine ⟨fun hc => by rw [hf] at hc; exact Option.noConfusion hc, ?_⟩
    simp [getAvailableSlotsForDate, hf, hasBookedQuery]

/-- Witness for C9 at a concrete input: a provider with no schedule
entries. -/
theorem getAvailableSlotsForDate_frame_witness :
    (((Provider.mk "pr" 0 30 []).schedules.find? fun s => s.dayOfWeek ==
        getDayOfWeekIndex 0 (getStartOfDayUTC 0 (Provider.mk "pr" 0 30 []).timezone))
        = none →
      getAvailableSlotsForDate 0 [] (Provider.mk "pr" 0 30 []) 0 = ([], [])) ∧
    (hasBookedQuery
        (getAvailableSlotsForDate 0 [] (Provider.mk "pr" 0 30 []) 0).2 = true ↔
      ((Provider.mk "pr" 0 30 []).schedules.find? fun s => s.dayOfWeek ==
        getDayOfWeekIndex 0 (getStartOfDayUTC 0 (Provider.mk "pr" 0 30 []).timezone))
        ≠ none) :=
  getAvailableSlotsForDate_frame 0 [] (Provider.mk "pr" 0 30 []) 0

/-- C8: rescheduling a non-cancelled appointment to its own current start
time returns the appointment unchanged, leaves the database and the lock
table untouched, and the trace records only the initial read: no lock is
taken, the update path is never invoked and no event is published. -/
theorem reschedule_same_time_noop (sysOffset : Int) (db : Db)
    (locks : LockMap) (now : Nat) (providerLookup : Option Provider)
    (emit : Except SvcError Unit) (appointmentId : String) (a : Appointment)
    (h1 : findById db appointmentId = some a)
    (h2 : a.status ≠ AppointmentStatus.cancelled) :
    rescheduleAppointment sysOffset db locks now providerLookup emit
        appointmentId a.startTime =
      (Except.ok a, db, locks, [Effect.dbFindById appointmentId]) := by
  have hst : (a.status == AppointmentStatus.cancelled) = false := by
    simp [h2]
  simp [rescheduleAppointment, h1, hst]

/-- Witness for C8 at a concrete input: a single confirmed appointment
rescheduled to its own start time 100. -/
theorem reschedule_same_time_noop_witness :
    findById [Appointment.mk "a1" "p1" "pr1" 100 130
        AppointmentStatus.confirmed] "a1" =
      some (Appointment.mk "a1" "p1" "pr1" 100 130
        AppointmentStatus.confirmed) ∧
    rescheduleAppointment 0
        [Appointment.mk "a1" "p1" "pr1" 100 130 AppointmentStatus.confirmed]
        [] 0 none (Except.ok ()) "a1"
        (Appointment.mk "a1" "p1" "pr1" 100 130
          AppointmentStatus.confirmed).startTime =
      (Except.ok (Appointment.mk "a1" "p1" "pr1" 100 130
          AppointmentStatus.confirmed),
        [Appointment.mk "a1" "p1" "pr1" 100 130 AppointmentStatus.confirmed],
        [], [Effect.dbFindById "a1"]) :=
  ⟨by decide,
    reschedule_same_time_noop 0
      [Appointment.mk "a1" "p1" "pr1" 100 130 AppointmentStatus.confirmed]
      [] 0 none (Except.ok ()) "a1"
      (Appointment.mk "a1" "p1" "pr1" 100 130 AppointmentStatus.confirmed)
      (by decide) (by decide)⟩

theorem findById_eq_id (db : Db) (i : String) (a : Appointment)
    (h : findById db i = some a) : a.id = i := by
  rw [findById] at h
  simpa using List.find?_some h

theorem findById_map_update (i : String) (a2 : Appointment) (hid : a2.id = i) :
    ∀ db : Db, (findById db i).isSome = true →
      findById (db.map fun b => if b.id == i then a2 else b) i = some a2
  | [], h => by simp [findById] at h
  | b :: db, h => by
      by_cases hb : b.id = i
      · have hbt : (b.id == i) = true := by simp [hb]
        have ha2 : (a2.id == i) = true := by simp [hid]
        simp only [List.map_cons, hbt, ite_true, findById, List.find?_cons, ha2]
      · have hbf : (b.id == i) = false := by simp [hb]
        have h2 : (findById db i).isSome = true := by
          simp only [findById, List.find?_cons, hbf] at h
          exact h
        have hrec := findById_map_update i a2 hid db h2
        simp only [findById] at hrec
        simp only [List.map_cons, hbf, Bool.false_eq_true, if_false, findById,
          List.find?_cons]
        exact hrec

theorem cancel_of_cancelled (db : Db) (emit : Except SvcError Unit)
    (i reason : String) (a : Appointment) (h1 : findById db i = some a)
    (h2 : a.status = AppointmentStatus.cancelled) :
    cancelAppointment db emit i reason =
      (Except.ok a, db, [Effect.dbFindById i]) := by
  have hst : (a.status == AppointmentStatus.cancelled) = true := by simp [h2]
  simp [cancelAppointment, h1, hst]

theorem reschedule_of_cancelled (sysOffset : Int) (db : Db) (locks : LockMap)
    (now : Nat) (providerLookup : Option Provider)
    (emit : Except SvcError Unit) (i : String) (t : Int) (a : Appointment)
    (h1 : findById db i = some a)
    (h2 : a.status = AppointmentStatus.cancelled) :
    rescheduleAppointment sysOffset db locks now providerLookup emit i t =
      (Except.error
          (SvcError.badRequest "Cannot reschedule a cancelled appointment."),
        db, locks, [Effect.dbFindById i]) := by
  have hst : (a.status == AppointmentStatus.cancelled) = true := by simp [h2]
  simp [rescheduleAppointment, h1, hst]

theorem cancel_success (db : Db) (i reason : String) (a : Appointment)
    (h1 : findById db i = some a)
    (h2 : a.status ≠ AppointmentStatus.cancelled) :
    cancelAppointment db (Except.ok ()) i reason =
      (Except.ok { a with status := AppointmentStatus.cancelled },
        db.map fun b => if b.id == i then
          { a with status := AppointmentStatus.cancelled } else b,
        [Effect.dbFindById i, Effect.dbUpdateStatus i,
          Effect.emitEvent "APPOINTMENT_CANCELLED" [a.id, reason]]) := by
  have hst : (a.status == AppointmentStatus.cancelled) = false := by
    simp [h2]
  simp [cancelAppointment, h1, hst, updateAppointmentStatus]

/-- C7: cancellation is idempotent and terminal: an already CANCELLED
appointment is returned unchanged with no write; a non-cancelled
appointment gets status CANCELLED in the returned record and in the table;
afterwards a second cancellation returns the cancelled record unchanged
and a reschedule of it fails with the BadRequestError. -/
theorem cancel_idempotent (sysOffset : Int) (db : Db) (locks : LockMap)
    (now : Nat) (providerLookup : Option Provider)
    (emit emit2 : Except SvcError Unit)
    (appointmentId reason reason2 : String) (newTime : Int) (a : Appointment)
    (h1 : findById db appointmentId = some a) :
    (a.status = AppointmentStatus.cancelled →
      cancelAppointment db emit appointmentId reason =
        (Except.ok a, db, [Effect.dbFindById appointmentId])) ∧
    (a.status ≠ AppointmentStatus.cancelled →
      (cancelAppointment db (Except.ok ()) appointmentId reason).1 =
        Except.ok { a with status := AppointmentStatus.cancelled } ∧
      findById (cancelAppointment db (Except.ok ()) appointmentId reason).2.1
          appointmentId =
        some { a with status := AppointmentStatus.cancelled } ∧
      cancelAppointment
          (cancelAppointment db (Except.ok ()) appointmentId reason).2.1
          emit2 appointmentId reason2 =
        (Except.ok { a with status := AppointmentStatus.cancelled },
          (cancelAppointment db (Except.ok ()) appointmentId reason).2.1,
          [Effect.dbFindById appointmentId]) ∧
      (rescheduleAppointment sysOffset
          (cancelAppointment db (Except.ok ()) appointmentId reason).2.1
          locks now providerLookup emit2 appointmentId newTime).1 =
        Except.error
          (SvcError.badRequest "Cannot reschedule a cancelled appointment.")) := by
  constructor
  · intro h2
    exact cancel_of_cancelled db emit appointmentId reason a h1 h2
  · intro h2
    have hc := cancel_success db appointmentId reason a h1 h2
    have hid : ({ a with status := AppointmentStatus.cancelled } :
        Appointment).id = appointmentId := findById_eq_id db appointmentId a h1
    have hfind2 : findById
        (cancelAppointment db (Except.ok ()) appointmentId reason).2.1
        appointmentId =
        some { a with status := AppointmentStatus.cancelled } := by
      rw [hc]
      exact findById_map_update appointmentId
        { a with status := AppointmentStatus.cancelled } hid db
        (by rw [h1]; rfl)
    refine ⟨by rw [hc], hfind2, ?_, ?_⟩
    · exact cancel_of_cancelled _ emit2 appointmentId reason2 _ hfind2 rfl
    · rw [reschedule_of_cancelled sysOffset _ locks now providerLookup emit2
        appointmentId newTime _ hfind2 rfl]

/-- Witness for C7 at a concrete input: a confirmed appointment "a1",
cancelled with reason "r" and probed with a second cancel and a
reschedule to time 200. -/
theorem cancel_idempotent_witness :
    findById [Appointment.mk "a1" "p1" "pr1" 100 130
        AppointmentStatus.confirmed] "a1" =
      some (Appointment.mk "a1" "p1" "pr1" 100 130
        AppointmentStatus.confirmed) ∧
    ((Appointment.mk "a1" "p1" "pr1" 100 130
        AppointmentStatus.confirmed).status = AppointmentStatus.cancelled →
      cancelAppointment
          [Appointment.mk "a1" "p1" "pr1" 100 130 AppointmentStatus.confirmed]
          (Except.ok ()) "a1" "r" =
        (Except.ok (Appointment.mk "a1" "p1" "pr1" 100 130
            AppointmentStatus.confirmed),
          [Appointment.mk "a1" "p1" "pr1" 100 130 AppointmentStatus.confirmed],
          [Effect.dbFindById "a1"])) ∧
    ((Appointment.mk "a1" "p1" "pr1" 100 130
        AppointmentStatus.confirmed).status ≠ AppointmentStatus.cancelled →
      (cancelAppointment
          [Appointment.mk "a1" "p1" "pr1" 100 130 AppointmentStatus.confirmed]
          (Except.ok ()) "a1" "r").1 =
        Except.ok { Appointment.mk "a1" "p1" "pr1" 100 130
          AppointmentStatus.confirmed with
            status := AppointmentStatus.cancelled } ∧
      findById (cancelAppointment
          [Appointment.mk "a1" "p1" "pr1" 100 130 AppointmentStatus.confirmed]
          (Except.ok ()) "a1" "r").2.1 "a1" =
        some { Appointment.mk "a1" "p1" "pr1" 100 130
          AppointmentStatus.confirmed with
            status := AppointmentStatus.cancelled } ∧
      cancelAppointment (cancelAppointment
          [Appointment.mk "a1" "p1" "pr1" 100 130 AppointmentStatus.confirmed]
          (Except.ok ()) "a1" "r").2.1 (Except.ok ()) "a1" "r2" =
        (Except.ok { Appointment.mk "a1" "p1" "pr1" 100 130
            AppointmentStatus.confirmed with
              status := AppointmentStatus.cancelled },
          (cancelAppointment
            [Appointment.mk "a1" "p1" "pr1" 100 130
              AppointmentStatus.confirmed]
            (Except.ok ()) "a1" "r").2.1,
          [Effect.dbFindById "a1"]) ∧
      (rescheduleAppointment 0 (cancelAppointment
          [Appointment.mk "a1" "p1" "pr1" 100 130 AppointmentStatus.confirmed]
          (Except.ok ()) "a1" "r").2.1 [] 0 none (Except.ok ()) "a1" 200).1 =
        Except.error
          (SvcError.badRequest "Cannot reschedule a cancelled appointment.")) :=
  ⟨by decide,
    cancel_idempotent 0
      [Appointment.mk "a1" "p1" "pr1" 100 130 AppointmentStatus.confirmed]
      [] 0 none (Except.ok ()) (Except.ok ()) "a1" "r" "r2" 200
      (Appointment.mk "a1" "p1" "pr1" 100 130 AppointmentStatus.confirmed)
      (by decide)⟩

deriving instance DecidableEq for Except

/-- C6 as stated fails on the code: the emit call is awaited with no catch
around it, so when the publish collaborator fails after the status update
has persisted, cancelAppointment returns the publish error, not the
successfully persisted appointment — the returned table shows the record
was cancelled all the same. -/
theorem cancel_publish_failure_counterexample :
    (cancelAppointment
        [Appointment.mk "a1" "p1" "pr1" 100 130 AppointmentStatus.confirmed]
        (Except.error (SvcError.appError "EMIT_FAILED")) "a1" "r").1 ≠
      Except.ok (Appointment.mk "a1" "p1" "pr1" 100 130
        AppointmentStatus.cancelled) ∧
    (cancelAppointment
        [Appointment.mk "a1" "p1" "pr1" 100 130 AppointmentStatus.confirmed]
        (Except.error (SvcError.appError "EMIT_FAILED")) "a1" "r").1 =
      Except.error (SvcError.appError "EMIT_FAILED") ∧
    (cancelAppointment
        [Appointment.mk "a1" "p1" "pr1" 100 130 AppointmentStatus.confirmed]
        (Except.error (SvcError.appError "EMIT_FAILED")) "a1" "r").2.1 =
      [Appointment.mk "a1" "p1" "pr1" 100 130 AppointmentStatus.cancelled] := by
  decide

/-- Does a trace contain an event emission? -/
def hasEmitEffect (trace : List Effect) : Bool :=
  trace.any fun e =>
    match e with
    | Effect.emitEvent _ _ => true
    | _ => false

theorem executeWithLock_emit_congr {α σ : Type} (locks : LockMap)
    (key : String) (ttl now : Nat)
    (t1 t2 : Except SvcError α × σ × List Effect) (s0 : σ) (e2 : SvcError)
    (hrel : t1.1.isOk = true → t2 = (Except.error e2, t1.2)) :
    (executeWithLock locks key ttl now t1 s0).1.isOk = true →
      executeWithLock locks key ttl now t2 s0 =
        (Except.error e2, (executeWithLock locks key ttl now t1 s0).2) := by
  rcases t1 with ⟨r1, s1, tr1⟩
  rcases hacq : acquireLock locks key ttl now with ⟨b, l1⟩
  cases b
  · intro h
    simp [executeWithLock, hacq, Except.isOk, Except.toBool] at h
  · intro h
    simp only [executeWithLock, hacq] at h ⊢
    rw [hrel h]

theorem bookCriticalSection_emit_err (sysOffset : Int) (db : Db)
    (providerLookup : Option Provider) (newId : String)
    (patientId providerId : String) (requestedTimeUTC : Int)
    (e2 : SvcError) :
    (bookCriticalSection sysOffset db providerLookup newId (Except.ok ())
        patientId providerId requestedTimeUTC).1.isOk = true →
      bookCriticalSection sysOffset db providerLookup newId
          (Except.error e2) patientId providerId requestedTimeUTC =
        (Except.error e2,
          (bookCriticalSection sysOffset db providerLookup newId
            (Except.ok ()) patientId providerId requestedTimeUTC).2) := by
  cases providerLookup with
  | none => intro h; simp [bookCriticalSection, Except.isOk, Except.toBool] at h
  | some provider =>
      simp only [bookCriticalSection]
      split
      · intro h; simp [Except.isOk, Except.toBool] at h
      · split
        · intro h; simp [Except.isOk, Except.toBool] at h
        · intro _; rfl

theorem rescheduleCriticalSection_emit_err (sysOffset : Int) (db : Db)
    (providerLookup : Option Provider) (appointmentId : String)
    (existingAppointment : Appointment) (newStartTimeUTC : Int)
    (e2 : SvcError) :
    (rescheduleCriticalSection sysOffset db providerLookup (Except.ok ())
        appointmentId existingAppointment newStartTimeUTC).1.isOk = true →
      rescheduleCriticalSection sysOffset db providerLookup
          (Except.error e2) appointmentId existingAppointment
          newStartTimeUTC =
        (Except.error e2,
          (rescheduleCriticalSection sysOffset db providerLookup
            (Except.ok ()) appointmentId existingAppointment
            newStartTimeUTC).2) := by
  cases providerLookup with
  | none => intro h; simp [rescheduleCriticalSection, Except.isOk, Except.toBool] at h
  | some provider =>
      simp only [rescheduleCriticalSection]
      split
      · intro h; simp [Except.isOk, Except.toBool] at h
      · split
        · intro h; simp [Except.isOk, Except.toBool] at h
        · intro _; rfl

/-- C6 amended: the emit failure propagates instead of being swallowed.
For each of book, reschedule and cancel, whenever the run with a
succeeding publish returns successfully and actually published (the runs
of reschedule and cancel that return without publishing — the no-op
reschedule and the idempotent cancel — are unaffected by the publish
outcome), the same run with a failing publish returns the publish error
while leaving the persisted table, the lock table and the effect trace
exactly as in the successful run: the write is not rolled back, but the
persisted appointment is not returned. -/
theorem publish_failure_amended (sysOffset : Int) (db : Db) (locks : LockMap)
    (now : Nat) (providerLookup : Option Provider) (newId : String)
    (e2 : SvcError) (patientId providerId : String) (requestedTimeUTC : Int)
    (appointmentId reason : String) (newStartTimeUTC : Int) :
    ((bookAppointment sysOffset db locks now providerLookup newId
        (Except.ok ()) patientId providerId requestedTimeUTC).1.isOk = true →
      bookAppointment sysOffset db locks now providerLookup newId
          (Except.error e2) patientId providerId requestedTimeUTC =
        (Except.error e2,
          (bookAppointment sysOffset db locks now providerLookup newId
            (Except.ok ()) patientId providerId requestedTimeUTC).2)) ∧
    ((rescheduleAppointment sysOffset db locks now providerLookup
        (Except.ok ()) appointmentId newStartTimeUTC).1.isOk = true →
      hasEmitEffect (rescheduleAppointment sysOffset db locks now
        providerLookup (Except.ok ()) appointmentId newStartTimeUTC).2.2.2
        = true →
      rescheduleAppointment sysOffset db locks now providerLookup
          (Except.error e2) appointmentId newStartTimeUTC =
        (Except.error e2,
          (rescheduleAppointment sysOffset db locks now providerLookup
            (Except.ok ()) appointmentId newStartTimeUTC).2)) ∧
    ((cancelAppointment db (Except.ok ()) appointmentId reason).1.isOk
        = true →
      hasEmitEffect
        (cancelAppointment db (Except.ok ()) appointmentId reason).2.2
        = true →
      cancelAppointment db (Except.error e2) appointmentId reason =
        (Except.error e2,
          (cancelAppointment db (Except.ok ()) appointmentId reason).2)) := by
  refine ⟨?_, ?_, ?_⟩
  · exact executeWithLock_emit_congr locks _ APPOINTMENT_LOCK_TTL_MS now _ _
      db e2
      (bookCriticalSection_emit_err sysOffset db providerLookup newId
        patientId providerId requestedTimeUTC e2)
  · simp only [rescheduleAppointment]
    split
    · intro h; simp [Except.isOk, Except.toBool] at h
    · split
      · intro h; simp [Except.isOk, Except.toBool] at h
      · split
        · intro _ h2; simp [hasEmitEffect] at h2
        · intro h h2
          have he := executeWithLock_emit_congr locks _
            APPOINTMENT_LOCK_TTL_MS now _ _ db e2
            (rescheduleCriticalSection_emit_err sysOffset db providerLookup
              appointmentId _ newStartTimeUTC e2) h
          rw [he]
  · simp only [cancelAppointment]
    split
    · intro h; simp [Except.isOk, Except.toBool] at h
    · split
      · intro _ h2; simp [hasEmitEffect] at h2
      · split
        · intro h; simp [Except.isOk, Except.toBool] at h
        · intro _ _; rfl

/-- Witness for the amended C6 at a concrete input: a UTC provider working
Mondays 09:00 to 17:00 with 30-minute slots, one confirmed appointment at
10:00 on Monday 2025-06-16 (instant 29167800); the booking targets 09:00
(29167740), the reschedule moves the appointment to 11:00 (29167860) and
the cancellation cancels it — all three antecedents hold. -/
theorem publish_failure_amended_witness :
    (bookAppointment 0
      [Appointment.mk "a1" "p1" "pr" 29167800 29167830
        AppointmentStatus.confirmed]
      [] 0 (some (Provider.mk "pr" 0 30 [ScheduleEntry.mk 1 540 1020])) "a2"
      (Except.ok ()) "p2" "pr" 29167740).1.isOk = true ∧
    (rescheduleAppointment 0
      [Appointment.mk "a1" "p1" "pr" 29167800 29167830
        AppointmentStatus.confirmed]
      [] 0 (some (Provider.mk "pr" 0 30 [ScheduleEntry.mk 1 540 1020]))
      (Except.ok ()) "a1" 29167860).1.isOk = true ∧
    hasEmitEffect (rescheduleAppointment 0
      [Appointment.mk "a1" "p1" "pr" 29167800 29167830
        AppointmentStatus.confirmed]
      [] 0 (some (Provider.mk "pr" 0 30 [ScheduleEntry.mk 1 540 1020]))
      (Except.ok ()) "a1" 29167860).2.2.2 = true ∧
    (cancelAppointment
      [Appointment.mk "a1" "p1" "pr" 29167800 29167830
        AppointmentStatus.confirmed]
      (Except.ok ()) "a1" "r").1.isOk = true ∧
    hasEmitEffect (cancelAppointment
      [Appointment.mk "a1" "p1" "pr" 29167800 29167830
        AppointmentStatus.confirmed]
      (Except.ok ()) "a1" "r").2.2 = true ∧
    (((bookAppointment 0
        [Appointment.mk "a1" "p1" "pr" 29167800 29167830
          AppointmentStatus.confirmed]
        [] 0 (some (Provider.mk "pr" 0 30 [ScheduleEntry.mk 1 540 1020]))
        "a2" (Except.ok ()) "p2" "pr" 29167740).1.isOk = true →
      bookAppointment 0
          [Appointment.mk "a1" "p1" "pr" 29167800 29167830
            AppointmentStatus.confirmed]
          [] 0 (some (Provider.mk "pr" 0 30 [ScheduleEntry.mk 1 540 1020]))
          "a2" (Except.error (SvcError.appError "EMIT_FAILED")) "p2" "pr"
          29167740 =
        (Except.error (SvcError.appError "EMIT_FAILED"),
          (bookAppointment 0
            [Appointment.mk "a1" "p1" "pr" 29167800 29167830
              AppointmentStatus.confirmed]
            [] 0 (some (Provider.mk "pr" 0 30 [ScheduleEntry.mk 1 540 1020]))
            "a2" (Except.ok ()) "p2" "pr" 29167740).2)) ∧
    ((rescheduleAppointment 0
        [Appointment.mk "a1" "p1" "pr" 29167800 29167830
          AppointmentStatus.confirmed]
        [] 0 (some (Provider.mk "pr" 0 30 [ScheduleEntry.mk 1 540 1020]))
        (Except.ok ()) "a1" 29167860).1.isOk = true →
      hasEmitEffect (rescheduleAppointment 0
        [Appointment.mk "a1" "p1" "pr" 29167800 29167830
          AppointmentStatus.confirmed]
        [] 0 (some (Provider.mk "pr" 0 30 [ScheduleEntry.mk 1 540 1020]))
        (Except.ok ()) "a1" 29167860).2.2.2 = true →
      rescheduleAppointment 0
          [Appointment.mk "a1" "p1" "pr" 29167800 29167830
            AppointmentStatus.confirmed]
          [] 0 (some (Provider.mk "pr" 0 30 [ScheduleEntry.mk 1 540 1020]))
          (Except.error (SvcError.appError "EMIT_FAILED")) "a1" 29167860 =
        (Except.error (SvcError.appError "EMIT_FAILED"),
          (rescheduleAppointment 0
            [Appointment.mk "a1" "p1" "pr" 29167800 29167830
              AppointmentStatus.confirmed]
            [] 0 (some (Provider.mk "pr" 0 30 [ScheduleEntry.mk 1 540 1020]))
            (Except.ok ()) "a1" 29167860).2)) ∧
    ((cancelAppointment
        [Appointment.mk "a1" "p1" "pr" 29167800 29167830
          AppointmentStatus.confirmed]
        (Except.ok ()) "a1" "r").1.isOk = true →
      hasEmitEffect (cancelAppointment
        [Appointment.mk "a1" "p1" "pr" 29167800 29167830
          AppointmentStatus.confirmed]
        (Except.ok ()) "a1" "r").2.2 = true →
      cancelAppointment
          [Appointment.mk "a1" "p1" "pr" 29167800 29167830
            AppointmentStatus.confirmed]
          (Except.error (SvcError.appError "EMIT_FAILED")) "a1" "r" =
        (Except.error (SvcError.appError "EMIT_FAILED"),
          (cancelAppointment
            [Appointment.mk "a1" "p1" "pr" 29167800 29167830
              AppointmentStatus.confirmed]
            (Except.ok ()) "a1" "r").2))) :=
  ⟨by decide, by decide, by decide, by decide, by decide,
    publish_failure_amended 0
      [Appointment.mk "a1" "p1" "pr" 29167800 29167830
        AppointmentStatus.confirmed]
      [] 0 (some (Provider.mk "pr" 0 30 [ScheduleEntry.mk 1 540 1020])) "a2"
      (SvcError.appError "EMIT_FAILED") "p2" "pr" 29167740 "a1" "r" 29167860⟩

end ApptSvc
